import Mathlib

/-!
# Verification of the SignalFlow feedback analyzer core

Shallow embedding of the classification / aggregation core of the
`feedback-analyser` and `feedback-analyser-2` Cloudflare workers
(`src/index.js` in each).  The two workers share identical code for the
overview, feedback-listing, sentiment-trend, analysis and (where present)
summarization functions; where they differ (the per-theme trend inside
`getThemeDetail`) both variants are embedded.

Modelling conventions:
* D1/SQLite rows of the `feedback` table become `FeedbackRow`; the database
  is a `List FeedbackRow` in its native scan order.
* `created_at` (an ISO datetime string, ordered lexicographically =
  chronologically by SQLite) is modelled as a natural-number timestamp;
  `DATE(created_at)` becomes the day bucket `createdAt / 86400`.
* SQLite aggregate semantics are kept: `COUNT(*)` is the row count, while
  `SUM`/`AVG` over zero rows yield `NULL`, modelled as `none`.
* The Workers AI capability `env.AI.run` is an oracle
  `run : String → AIOutcome` from the prompt to either a response text or a
  capability-level error.
* `JSON.parse` is modelled by an executable JSON parser `parseJson`
  producing a `JVal`; `response.match(/\{[\s\S]*\}/)` is modelled by
  `extractJson` (first `\x7b` to last `\x7d`, when the former precedes the
  latter, exactly the greedy regex semantics).
-/

/-- A JSON value, the result of decoding classifier output
(model of a JavaScript `JSON.parse` result). -/
inductive JVal where
  | str (s : String)
  | num (q : ℚ)
  | bool (b : Bool)
  | null
  | obj (fields : List (String × JVal))
  | arr (elems : List JVal)

/-- Field lookup on a JSON object (JS property access on the parsed value). -/
def JVal.get (v : JVal) (k : String) : Option JVal :=
  match v with
  | .obj fields => (fields.find? (fun p => p.1 = k)).map Prod.snd
  | _ => none

/-- Extract the string payload of a JSON string value. -/
def JVal.asString (v : JVal) : Option String :=
  match v with
  | .str s => some s
  | _ => none

/-- A string-typed field of a JSON object. -/
def JVal.getStr (v : JVal) (k : String) : Option String :=
  (v.get k).bind JVal.asString

/-- JSON whitespace. -/
def isJsonWs (c : Char) : Bool :=
  c = ' ' || c = '\t' || c = '\n' || c = '\r'

/-- Drop leading JSON whitespace. -/
def skipWs : List Char → List Char
  | [] => []
  | c :: cs => if isJsonWs c then skipWs cs else c :: cs

/-- Value of a hexadecimal digit. -/
def hexVal (c : Char) : Option Nat :=
  if '0' ≤ c ∧ c ≤ '9' then some (c.toNat - '0'.toNat)
  else if 'a' ≤ c ∧ c ≤ 'f' then some (c.toNat - 'a'.toNat + 10)
  else if 'A' ≤ c ∧ c ≤ 'F' then some (c.toNat - 'A'.toNat + 10)
  else none

/-- Single-character JSON escapes. -/
def unescapeChar (c : Char) : Option Char :=
  if c = '"' then some '"'
  else if c = '\\' then some '\\'
  else if c = '/' then some '/'
  else if c = 'b' then some (Char.ofNat 8)
  else if c = 'f' then some (Char.ofNat 12)
  else if c = 'n' then some '\n'
  else if c = 'r' then some '\r'
  else if c = 't' then some '\t'
  else none

/-- Parse the body of a JSON string literal (after the opening quote),
returning the decoded characters and the remaining input.  Unescaped
control characters are rejected, as `JSON.parse` does. -/
def parseStringBody : List Char → Option (List Char × List Char)
  | [] => none
  | '"' :: rest => some ([], rest)
  | '\\' :: 'u' :: h1 :: h2 :: h3 :: h4 :: rest => do
    let a ← hexVal h1
    let b ← hexVal h2
    let c ← hexVal h3
    let d ← hexVal h4
    let (s, r) ← parseStringBody rest
    pure (Char.ofNat (((a * 16 + b) * 16 + c) * 16 + d) :: s, r)
  | '\\' :: e :: rest => do
    let c ← unescapeChar e
    let (s, r) ← parseStringBody rest
    pure (c :: s, r)
  | c :: rest =>
    if c.toNat < 32 then none
    else do
      let (s, r) ← parseStringBody rest
      pure (c :: s, r)

/-- Numeric value of a digit character. -/
def digitVal (c : Char) : Nat := c.toNat - '0'.toNat

/-- Natural number denoted by a digit string. -/
def digitsToNat (ds : List Char) : Nat :=
  ds.foldl (fun n c => n * 10 + digitVal c) 0

/-- Build the rational value of a parsed JSON number from its sign, integer
numerator and denominator. -/
def signedRat (neg : Bool) (num den : Nat) : ℚ :=
  if neg then -(mkRat (Int.ofNat num) den) else mkRat (Int.ofNat num) den

/-- Parse the exponent suffix of a JSON number (after the `e`/`E`),
scaling the value accumulated so far. -/
def exponentNumber (neg : Bool) (num den : Nat) (t : List Char) :
    Option (ℚ × List Char) :=
  let (esign, t1) :=
    match t with
    | '+' :: u => (false, u)
    | '-' :: u => (true, u)
    | _ => (false, t)
  let (es, t2) := t1.span (fun c => Char.isDigit c)
  if es.isEmpty then none
  else
    let e := digitsToNat es
    if esign then some (signedRat neg num (den * 10 ^ e), t2)
    else some (signedRat neg (num * 10 ^ e) den, t2)

/-- Finish a JSON number whose mantissa is `num / den`: an optional
exponent part, then the signed rational value. -/
def finishNumber (neg : Bool) (num den : Nat) (cs : List Char) :
    Option (ℚ × List Char) :=
  match cs with
  | 'e' :: t => exponentNumber neg num den t
  | 'E' :: t => exponentNumber neg num den t
  | _ => some (signedRat neg num den, cs)

/-- Parse a JSON number (`-? int frac? exp?`, leading zeros rejected),
returning its exact rational value and the remaining input. -/
def parseNumber (cs : List Char) : Option (ℚ × List Char) :=
  let (neg, cs1) :=
    match cs with
    | '-' :: t => (true, t)
    | _ => (false, cs)
  let (ds, cs2) := cs1.span (fun c => Char.isDigit c)
  if ds.isEmpty then none
  else if ds.length > 1 ∧ ds.head? = some '0' then none
  else
    match cs2 with
    | '.' :: t =>
      let (fs, cs3) := t.span (fun c => Char.isDigit c)
      if fs.isEmpty then none
      else
        finishNumber neg (digitsToNat ds * 10 ^ fs.length + digitsToNat fs)
          (10 ^ fs.length) cs3
    | _ => finishNumber neg (digitsToNat ds) 1 cs2

mutual

/-- Fueled recursive-descent JSON value parser (model of `JSON.parse`). -/
def parseVal : Nat → List Char → Option (JVal × List Char)
  | 0, _ => none
  | fuel + 1, cs =>
    match skipWs cs with
    | 't' :: 'r' :: 'u' :: 'e' :: r => some (.bool true, r)
    | 'f' :: 'a' :: 'l' :: 's' :: 'e' :: r => some (.bool false, r)
    | 'n' :: 'u' :: 'l' :: 'l' :: r => some (.null, r)
    | '"' :: r => (parseStringBody r).map (fun p => (.str (String.mk p.1), p.2))
    | '{' :: r =>
      (match skipWs r with
       | '}' :: r2 => some (.obj [], r2)
       | _ => (parseMembers fuel r).map (fun p => (.obj p.1, p.2)))
    | '[' :: r =>
      (match skipWs r with
       | ']' :: r2 => some (.arr [], r2)
       | _ => (parseElems fuel r).map (fun p => (.arr p.1, p.2)))
    | other => (parseNumber other).map (fun p => (.num p.1, p.2))

/-- Parse the members of a JSON object after the opening brace. -/
def parseMembers : Nat → List Char → Option (List (String × JVal) × List Char)
  | 0, _ => none
  | fuel + 1, cs =>
    match skipWs cs with
    | '"' :: r => do
      let (k, r1) ← parseStringBody r
      match skipWs r1 with
      | ':' :: r2 => do
        let (v, r3) ← parseVal fuel r2
        match skipWs r3 with
        | ',' :: r4 => do
          let (rest, r5) ← parseMembers fuel r4
          pure ((String.mk k, v) :: rest, r5)
        | '}' :: r4 => pure ([(String.mk k, v)], r4)
        | _ => none
      | _ => none
    | _ => none

/-- Parse the elements of a JSON array after the opening bracket. -/
def parseElems : Nat → List Char → Option (List JVal × List Char)
  | 0, _ => none
  | fuel + 1, cs => do
    let (v, r) ← parseVal fuel cs
    match skipWs r with
    | ',' :: r2 => do
      let (rest, r3) ← parseElems fuel r2
      pure (v :: rest, r3)
    | ']' :: r2 => pure ([v], r2)
    | _ => none

end

/-- `JSON.parse`: decode a complete JSON text (trailing garbage rejected). -/
def parseJson (s : String) : Option JVal :=
  match parseVal (s.length + 1) s.toList with
  | some (v, rest) => if (skipWs rest).isEmpty then some v else none
  | none => none

/-- `response.match(/\x7b[\s\S]*\x7d/)`: the greedy regex matches from the
first `\x7b` to the last `\x7d` of the text whenever the former strictly
precedes the latter, and fails otherwise. -/
def extractJson (s : String) : Option String :=
  let cs := s.toList
  match cs.findIdx? (· = '{'), cs.reverse.findIdx? (· = '}') with
  | some i, some k =>
    let j := cs.length - 1 - k
    if i < j then some (String.mk ((cs.drop i).take (j - i + 1))) else none
  | _, _ => none

/-- Outcome of one `env.AI.run` invocation: either a free-text response or a
capability-level failure (network, quota, timeout) carrying its message. -/
inductive AIOutcome where
  | ok (response : String)
  | err (message : String)

/-- The classification prompt built by `analyzeWithAI` around the verbatim
content (string template of `src/index.js`). -/
def analysisPrompt (content : String) : String :=
  "Analyze this product feedback and respond in JSON format only:\n\nFeedback: \""
    ++ content
    ++ "\"\n\nRespond with exactly this JSON structure (no other text):\n\x7b\n  \"sentiment\": \"positive\" or \"neutral\" or \"negative\",\n  \"sentiment_score\": number from -1.0 to 1.0,\n  \"theme\": one of [\"performance\", \"pricing\", \"documentation\", \"developer-experience\", \"reliability\", \"feature-request\", \"other\"],\n  \"urgency\": \"low\" or \"medium\" or \"high\" or \"critical\",\n  \"summary\": \"one sentence summary of the feedback\"\n\x7d"

/-- The fallback record built when the AI response yields no JSON or fails to
decode; it carries the raw response alongside the fixed neutral fields. -/
def fallbackParse (raw : String) : JVal :=
  .obj [("sentiment", .str "neutral"), ("sentiment_score", .num 0),
        ("theme", .str "other"), ("urgency", .str "medium"),
        ("summary", .str "Unable to parse AI response"),
        ("raw_response", .str raw)]

/-- The fallback record built when the AI call itself fails; it carries the
capability error message alongside the fixed neutral fields. -/
def fallbackCapability (msg : String) : JVal :=
  .obj [("sentiment", .str "neutral"), ("sentiment_score", .num 0),
        ("theme", .str "other"), ("urgency", .str "medium"),
        ("summary", .str "AI analysis unavailable"),
        ("error", .str msg)]

/-- Result of the `/api/analyze` operation: a 400 rejection for missing
content, or a 200 JSON body. -/
inductive AnalyzeResult where
  | badRequest
  | ok (body : JVal)

/-- `analyzeWithAI` of both workers: reject empty content, invoke the AI
capability with the classification prompt, extract the first-`\x7b`-to-last-`\x7d`
substring of the response, decode it with `JSON.parse`, and return the decoded
value verbatim; on extraction or decode failure return `fallbackParse`, on
capability failure return `fallbackCapability`. -/
def analyzeWithAI (content : String) (run : String → AIOutcome) : AnalyzeResult :=
  if content = "" then .badRequest
  else
    match run (analysisPrompt content) with
    | .err msg => .ok (fallbackCapability msg)
    | .ok response =>
      match extractJson response with
      | none => .ok (fallbackParse response)
      | some sub =>
        match parseJson sub with
        | none => .ok (fallbackParse response)
        | some v => .ok v

/-- Body field of an analysis result, read as a string (for inspecting what
the endpoint returned). -/
def analyzeField (res : AnalyzeResult) (k : String) : Option String :=
  match res with
  | .ok body => body.getStr k
  | .badRequest => none

/-- Fixed message returned by summarization when there is nothing to do. -/
def noFeedbackMsg : String := "No feedback to summarize."

/-- Fixed message returned by summarization on capability failure. -/
def summaryUnavailableMsg : String :=
  "Unable to generate AI summary. Please review the feedback manually."

/-- `feedbackTexts.slice(0, 10).join('\n---\n')`. -/
def combinedFeedback (texts : List String) : String :=
  String.intercalate "\n---\n" (texts.take 10)

/-- The summarization prompt built by `summarizeFeedback` (string template of
`feedback-analyser-2/src/index.js`). -/
def summaryPrompt (theme combined : String) : String :=
  "You are a product manager analyzing customer feedback about \""
    ++ theme
    ++ "\". \n\nHere are the most recent feedback items:\n\n"
    ++ combined
    ++ "\n\nPlease provide a concise 2-3 sentence summary that:\n1. Identifies the main pain points or requests\n2. Notes any patterns or common themes\n3. Suggests what action might be needed\n\nKeep it actionable and professional."

/-- `summarizeFeedback` of `feedback-analyser-2`: short-circuit with the fixed
message when the text sequence is absent or empty, otherwise prompt the AI
with the first 10 texts and fall back to a fixed message on capability
failure. -/
def summarizeFeedback (feedbackTexts : Option (List String)) (theme : String)
    (run : String → AIOutcome) : JVal :=
  match feedbackTexts with
  | none => .obj [("summary", .str noFeedbackMsg)]
  | some texts =>
    if texts.isEmpty then .obj [("summary", .str noFeedbackMsg)]
    else
      match run (summaryPrompt theme (combinedFeedback texts)) with
      | .ok resp => .obj [("summary", .str resp)]
      | .err msg =>
        .obj [("summary", .str summaryUnavailableMsg), ("error", .str msg)]

/-- One row of the D1 `feedback` table (schema of `schema.sql`), with
`created_at` modelled as a natural-number timestamp. -/
structure FeedbackRow where
  id : Nat
  createdAt : Nat
  channel : String
  title : Option String := none
  content : String
  author : Option String := none
  sentiment : String := "pending"
  sentimentScore : ℚ := 0
  theme : String := "uncategorized"
  urgency : String := "low"
  valueScore : String := "medium"
  analyzed : Bool := false
  deriving DecidableEq

/-- `DATE(created_at)`: the calendar-day bucket of a timestamp. -/
def dayOf (t : Nat) : Nat := t / 86400

/-- `WHERE analyzed = 1`. -/
def analyzedRows (db : List FeedbackRow) : List FeedbackRow :=
  db.filter (·.analyzed)

/-- SQLite `SUM(CASE WHEN p THEN 1 ELSE 0 END)`: `NULL` over zero rows,
otherwise the number of rows satisfying `p`. -/
def sqlSumCase (p : FeedbackRow → Bool) (rows : List FeedbackRow) : Option Nat :=
  if rows.isEmpty then none else some (rows.countP p)

/-- SQLite `AVG`: `NULL` over zero rows, otherwise the mean. -/
def sqlAvg (xs : List ℚ) : Option ℚ :=
  if xs.isEmpty then none else some (xs.sum / (xs.length : ℚ))

/-- The closed sentiment enum of the classification contract. -/
def sentimentEnum : List String := ["positive", "neutral", "negative"]

/-- The closed theme enum of the classification contract. -/
def themeEnum : List String :=
  ["performance", "pricing", "documentation", "developer-experience",
   "reliability", "feature-request", "other"]

/-- The closed urgency enum of the classification contract. -/
def urgencyEnum : List String := ["low", "medium", "high", "critical"]

/-- The documented keys of a `ClassificationResult`. -/
def classificationKeys : List String :=
  ["sentiment", "sentiment_score", "theme", "urgency", "summary"]

/-- The stats record of `getOverview`'s first query (one row; `SUM`/`AVG`
are `NULL` when no analyzed rows exist). -/
structure OverviewStats where
  total_feedback : Nat
  positive : Option Nat
  neutral : Option Nat
  negative : Option Nat
  critical_count : Option Nat
  high_count : Option Nat
  avg_sentiment : Option ℚ
  deriving DecidableEq

/-- The aggregate stats query at the top of `getOverview` (identical in both
workers). -/
def getOverviewStats (db : List FeedbackRow) : OverviewStats :=
  let rows := analyzedRows db
  { total_feedback := rows.length
    positive := sqlSumCase (fun r => r.sentiment = "positive") rows
    neutral := sqlSumCase (fun r => r.sentiment = "neutral") rows
    negative := sqlSumCase (fun r => r.sentiment = "negative") rows
    critical_count := sqlSumCase (fun r => r.urgency = "critical") rows
    high_count := sqlSumCase (fun r => r.urgency = "high") rows
    avg_sentiment := sqlAvg (rows.map (·.sentimentScore)) }

/-- Distinct themes of a row set, in first-occurrence order (the `GROUP BY
theme` keys). -/
def themesOf (rows : List FeedbackRow) : List String :=
  (rows.map (·.theme)).dedup

/-- One group row of the top-themes query. -/
structure ThemeStat where
  theme : String
  count : Nat
  avg_sentiment : Option ℚ
  urgent_count : Nat
  deriving DecidableEq

/-- The per-theme aggregates of the top-themes query for one group. -/
def themeStatFor (rows : List FeedbackRow) (t : String) : ThemeStat :=
  let g := rows.filter (fun r => r.theme = t)
  { theme := t
    count := g.length
    avg_sentiment := sqlAvg (g.map (·.sentimentScore))
    urgent_count := g.countP (fun r => r.urgency = "critical" ∨ r.urgency = "high") }

/-- `ORDER BY urgent_count DESC, count DESC` as a total preorder. -/
def themeOrder (a b : ThemeStat) : Prop :=
  b.urgent_count < a.urgent_count ∨
    (a.urgent_count = b.urgent_count ∧ b.count ≤ a.count)

instance : DecidableRel themeOrder := fun a b => by
  unfold themeOrder; infer_instance

instance : IsTotal ThemeStat themeOrder := ⟨by intro a b; unfold themeOrder; omega⟩

instance : IsTrans ThemeStat themeOrder := ⟨by intro a b c; unfold themeOrder; omega⟩

/-- The `topThemes` query of `getOverview`: group the analyzed,
non-`uncategorized` rows by theme, order by urgent count then total count,
both descending, and keep the first 5. -/
def getTopThemes (db : List FeedbackRow) : List ThemeStat :=
  let rows := (analyzedRows db).filter (fun r => r.theme ≠ "uncategorized")
  (List.insertionSort themeOrder ((themesOf rows).map (themeStatFor rows))).take 5

/-- `ORDER BY date DESC` on day buckets as a total preorder. -/
def natDescOrder (a b : Nat) : Prop := b ≤ a

instance : DecidableRel natDescOrder := fun a b =>
  inferInstanceAs (Decidable (b ≤ a))

instance : IsTotal Nat natDescOrder := ⟨fun a b => (Nat.le_total b a).imp id id⟩

instance : IsTrans Nat natDescOrder := ⟨fun _ _ _ h1 h2 => Nat.le_trans h2 h1⟩

/-- Distinct day buckets of a row set, in first-occurrence order (the
`GROUP BY DATE(created_at)` keys). -/
def daysOf (rows : List FeedbackRow) : List Nat :=
  (rows.map (fun r => dayOf r.createdAt)).dedup

/-- One day bucket of the sentiment-trend query. -/
structure TrendBucket where
  date : Nat
  total : Nat
  avg_sentiment : Option ℚ
  positive : Nat
  negative : Nat
  deriving DecidableEq

/-- The aggregates of the sentiment-trend query for one day group. -/
def trendBucketFor (rows : List FeedbackRow) (d : Nat) : TrendBucket :=
  let g := rows.filter (fun r => dayOf r.createdAt = d)
  { date := d
    total := g.length
    avg_sentiment := sqlAvg (g.map (·.sentimentScore))
    positive := g.countP (fun r => r.sentiment = "positive")
    negative := g.countP (fun r => r.sentiment = "negative") }

/-- `getSentimentTrend` (identical in both workers): bucket analyzed rows by
day, order newest first, keep 14 buckets, then reverse before returning. -/
def getSentimentTrend (db : List FeedbackRow) : List TrendBucket :=
  let rows := analyzedRows db
  (((List.insertionSort natDescOrder (daysOf rows)).take 14).map
    (trendBucketFor rows)).reverse

/-- `WHERE theme = ? AND analyzed = 1`. -/
def themeRows (db : List FeedbackRow) (theme : String) : List FeedbackRow :=
  (analyzedRows db).filter (fun r => r.theme = theme)

/-- One day bucket of the per-theme trend query of `feedback-analyser-2`. -/
structure ThemeTrendBucket where
  date : Nat
  count : Nat
  avg_sentiment : Option ℚ
  positive : Nat
  neutral : Nat
  negative : Nat
  deriving DecidableEq

/-- The aggregates of the per-theme trend query of `feedback-analyser-2` for
one day group. -/
def themeTrendBucketFor (rows : List FeedbackRow) (d : Nat) : ThemeTrendBucket :=
  let g := rows.filter (fun r => dayOf r.createdAt = d)
  { date := d
    count := g.length
    avg_sentiment := sqlAvg (g.map (·.sentimentScore))
    positive := g.countP (fun r => r.sentiment = "positive")
    neutral := g.countP (fun r => r.sentiment = "neutral")
    negative := g.countP (fun r => r.sentiment = "negative") }

/-- The per-theme daily trend inside `getThemeDetail` of
`feedback-analyser-2`: newest first, `LIMIT 14`, then reversed. -/
def getThemeDetailTrend (db : List FeedbackRow) (theme : String) :
    List ThemeTrendBucket :=
  let rows := themeRows db theme
  (((List.insertionSort natDescOrder (daysOf rows)).take 14).map
    (themeTrendBucketFor rows)).reverse

/-- One day bucket of the per-theme trend query of `feedback-analyser`. -/
structure ThemeTrendBucketV1 where
  date : Nat
  count : Nat
  avg_sentiment : Option ℚ
  deriving DecidableEq

/-- The aggregates of the per-theme trend query of `feedback-analyser` for
one day group. -/
def themeTrendBucketV1For (rows : List FeedbackRow) (d : Nat) :
    ThemeTrendBucketV1 :=
  let g := rows.filter (fun r => dayOf r.createdAt = d)
  { date := d
    count := g.length
    avg_sentiment := sqlAvg (g.map (·.sentimentScore)) }

/-- The per-theme daily trend inside `getThemeDetail` of `feedback-analyser`:
newest first, `LIMIT 7`, then reversed. -/
def getThemeDetailTrendV1 (db : List FeedbackRow) (theme : String) :
    List ThemeTrendBucketV1 :=
  let rows := themeRows db theme
  (((List.insertionSort natDescOrder (daysOf rows)).take 7).map
    (themeTrendBucketV1For rows)).reverse

/-- The optional query-string filters of `getFeedback` (absent parameter =
`none`; `url.searchParams.get` also yields the empty string, which JS treats
as falsy, so `some ""` behaves like `none`). -/
structure FeedbackFilters where
  sentiment : Option String := none
  theme : Option String := none
  urgency : Option String := none
  channel : Option String := none
  limit : Option Nat := none
  deriving DecidableEq

/-- Whether a filter criterion contributes a predicate: present, truthy, and
not the `"all"` sentinel. -/
def filterActive (v : Option String) : Bool :=
  match v with
  | none => false
  | some s => ¬(s = "" ∨ s = "all")

/-- The exact-match condition a criterion imposes on a column (`true` when
the criterion is absent, empty or `"all"`). -/
def filterCond (v : Option String) (field : String) : Bool :=
  match v with
  | none => true
  | some s => if s = "" ∨ s = "all" then true else field = s

/-- The WHERE clause of the `getFeedback` query applied to one row. -/
def matchesFilters (f : FeedbackFilters) (r : FeedbackRow) : Bool :=
  r.analyzed && filterCond f.sentiment r.sentiment
    && filterCond f.theme r.theme && filterCond f.urgency r.urgency
    && filterCond f.channel r.channel

/-- `ORDER BY created_at DESC` as a total preorder on rows. -/
def rowRecencyOrder (a b : FeedbackRow) : Prop := b.createdAt ≤ a.createdAt

instance : DecidableRel rowRecencyOrder := fun a b =>
  inferInstanceAs (Decidable (b.createdAt ≤ a.createdAt))

instance : IsTotal FeedbackRow rowRecencyOrder :=
  ⟨fun a b => (Nat.le_total b.createdAt a.createdAt).imp id id⟩

instance : IsTrans FeedbackRow rowRecencyOrder :=
  ⟨fun _ _ _ h1 h2 => Nat.le_trans h2 h1⟩

/-- `getFeedback` (identical in both workers): filter to analyzed rows
matching every present non-`"all"` criterion, order newest first, and cap at
the requested limit (default 50). -/
def getFeedback (db : List FeedbackRow) (f : FeedbackFilters) :
    List FeedbackRow :=
  (List.insertionSort rowRecencyOrder (db.filter (matchesFilters f))).take
    (f.limit.getD 50)

/-- The SQL text `getFeedback` builds: fixed fragments chosen only by which
criteria are active — filter values never appear in the text. -/
def feedbackQueryText (f : FeedbackFilters) : String :=
  "SELECT * FROM feedback WHERE analyzed = 1"
    ++ (if filterActive f.sentiment then " AND sentiment = ?" else "")
    ++ (if filterActive f.theme then " AND theme = ?" else "")
    ++ (if filterActive f.urgency then " AND urgency = ?" else "")
    ++ (if filterActive f.channel then " AND channel = ?" else "")
    ++ " ORDER BY created_at DESC LIMIT ?"

/-- The bound-parameter list `getFeedback` passes alongside the query text:
the value of each active criterion, then the limit. -/
def feedbackQueryParams (f : FeedbackFilters) : List String :=
  (if filterActive f.sentiment then [f.sentiment.getD ""] else [])
    ++ (if filterActive f.theme then [f.theme.getD ""] else [])
    ++ (if filterActive f.urgency then [f.urgency.getD ""] else [])
    ++ (if filterActive f.channel then [f.channel.getD ""] else [])
    ++ [toString (f.limit.getD 50)]

/-- Query text as a function of the four activity flags alone, with no
access to the filter values. -/
def queryTextOfFlags (s t u c : Bool) : String :=
  "SELECT * FROM feedback WHERE analyzed = 1"
    ++ (if s then " AND sentiment = ?" else "")
    ++ (if t then " AND theme = ?" else "")
    ++ (if u then " AND urgency = ?" else "")
    ++ (if c then " AND channel = ?" else "")
    ++ " ORDER BY created_at DESC LIMIT ?"

/-- The date column of a trend result: newest-first distinct day buckets,
limited to `n`, then reversed (shared shape of the three trend queries). -/
def trendDates (rows : List FeedbackRow) (n : Nat) : List Nat :=
  ((List.insertionSort natDescOrder (daysOf rows)).take n).reverse

/-- A store holding a single still-pending (unanalyzed) row. -/
def pendingOnlyDb : List FeedbackRow :=
  [{ id := 1, createdAt := 1000, channel := "support", content := "hello" }]

/-- An analyzed positive feedback row. -/
def positiveRow : FeedbackRow :=
  { id := 1, createdAt := 86400 * 2 + 10, channel := "support", content := "fast",
    sentiment := "positive", sentimentScore := mkRat 1 2, theme := "performance",
    urgency := "low", analyzed := true }

/-- A store of three analyzed rows with in-enum sentiments. -/
def smallAnalyzedDb : List FeedbackRow :=
  [positiveRow,
   { id := 2, createdAt := 86400 * 3 + 20, channel := "github", content := "slow",
     sentiment := "negative", sentimentScore := mkRat (-1) 2, theme := "performance",
     urgency := "high", analyzed := true },
   { id := 3, createdAt := 86400 * 4, channel := "discord", content := "meh",
     sentiment := "neutral", sentimentScore := 0, theme := "pricing",
     urgency := "medium", analyzed := true }]

/-- A store where theme `pricing` has 5 analyzed items, 1 of them urgent, and
theme `performance` has 3 analyzed items, 2 of them urgent. -/
def topThemesDb : List FeedbackRow :=
  [{ id := 1, createdAt := 86400, channel := "support", content := "a",
     sentiment := "neutral", theme := "pricing", urgency := "high", analyzed := true },
   { id := 2, createdAt := 86400 * 2, channel := "support", content := "b",
     sentiment := "neutral", theme := "pricing", urgency := "low", analyzed := true },
   { id := 3, createdAt := 86400 * 3, channel := "github", content := "c",
     sentiment := "neutral", theme := "pricing", urgency := "low", analyzed := true },
   { id := 4, createdAt := 86400 * 4, channel := "github", content := "d",
     sentiment := "neutral", theme := "pricing", urgency := "medium", analyzed := true },
   { id := 5, createdAt := 86400 * 5, channel := "forum", content := "e",
     sentiment := "neutral", theme := "pricing", urgency := "low", analyzed := true },
   { id := 6, createdAt := 86400 * 6, channel := "forum", content := "f",
     sentiment := "negative", theme := "performance", urgency := "critical", analyzed := true },
   { id := 7, createdAt := 86400 * 7, channel := "discord", content := "g",
     sentiment := "negative", theme := "performance", urgency := "high", analyzed := true },
   { id := 8, createdAt := 86400 * 8, channel := "discord", content := "h",
     sentiment := "neutral", theme := "performance", urgency := "low", analyzed := true }]

/-- A store of 15 analyzed `performance` rows on 15 consecutive days. -/
def trendDb15 : List FeedbackRow :=
  (List.range 15).map fun i =>
    { id := i + 1, createdAt := 86400 * i, channel := "support", content := "c",
      sentiment := "neutral", sentimentScore := 0, theme := "performance",
      urgency := "low", analyzed := true }

/-- A classifier response that is well-formed JSON whose enum fields all lie
outside their closed enums. -/
def alienResponse : String :=
  "\x7b\"sentiment\":\"alien\",\"sentiment_score\":0,\"theme\":\"spaceship\",\"urgency\":\"galactic\",\"summary\":\"weird\"\x7d"

/-- The decoded value of `alienResponse`. -/
def alienJVal : JVal :=
  .obj [("sentiment", .str "alien"), ("sentiment_score", .num 0),
        ("theme", .str "spaceship"), ("urgency", .str "galactic"),
        ("summary", .str "weird")]

/-!
## Shared lemmas

General facts about the newest-first / limit / reverse shape shared by the
trend queries, and about sentiment counting.
-/

/-- Taking a prefix of a descending duplicate-free list and reversing it
yields a strictly ascending list. -/
theorem take_reverse_pairwise_lt {l : List Nat} (hp : l.Pairwise natDescOrder)
    (hn : l.Nodup) (n : Nat) : ((l.take n).reverse).Pairwise (· < ·) := by
  rw [List.pairwise_reverse]
  have h1 : (l.take n).Pairwise natDescOrder := hp.sublist (List.take_sublist n l)
  have h2 : (l.take n).Nodup := hn.sublist (List.take_sublist n l)
  exact (h1.and h2).imp (fun h => Nat.lt_of_le_of_ne h.1 (fun he => h.2 he.symm))

/-- In a descending duplicate-free list, every element left out of a prefix
is strictly smaller than every element of that prefix. -/
theorem sorted_take_most_recent {l : List Nat} (hp : l.Pairwise natDescOrder)
    (hn : l.Nodup) (n : Nat) {x y : Nat} (hx : x ∈ l) (hnx : x ∉ l.take n)
    (hy : y ∈ l.take n) : x < y := by
  have hsplit := List.take_append_drop n l
  have hpa : (l.take n ++ l.drop n).Pairwise natDescOrder := by
    rw [hsplit]; exact hp
  have hna : (l.take n ++ l.drop n).Nodup := by rw [hsplit]; exact hn
  have hxa : x ∈ l.take n ++ l.drop n := by rw [hsplit]; exact hx
  have hxd : x ∈ l.drop n := (List.mem_append.mp hxa).resolve_left hnx
  have hle : natDescOrder y x := (List.pairwise_append.mp hpa).2.2 y hy x hxd
  have hdisj := (List.nodup_append.mp hna).2.2
  exact Nat.lt_of_le_of_ne hle (fun he => hdisj hy (he ▸ hxd))

/-- The date column of any of the trend queries is strictly ascending, has at
most `n` entries, and consists of the `n` most recent day buckets: every
bucket left out is older than every bucket returned. -/
theorem trend_dates_spec (rows : List FeedbackRow) (n : Nat) :
    (trendDates rows n).Pairwise (· < ·) ∧
    (trendDates rows n).length ≤ n ∧
    (∀ d ∈ daysOf rows, d ∉ trendDates rows n →
      ∀ e ∈ trendDates rows n, d < e) := by
  have hperm := List.perm_insertionSort natDescOrder (daysOf rows)
  have hp : (List.insertionSort natDescOrder (daysOf rows)).Pairwise natDescOrder :=
    List.sorted_insertionSort natDescOrder (daysOf rows)
  have hn : (List.insertionSort natDescOrder (daysOf rows)).Nodup :=
    hperm.nodup_iff.mpr (List.nodup_dedup _)
  refine ⟨take_reverse_pairwise_lt hp hn n, ?_, ?_⟩
  · simp only [trendDates, List.length_reverse]
    exact List.length_take_le n _
  · intro d hd hnd e he
    rw [trendDates, List.mem_reverse] at he
    have hd' : d ∈ List.insertionSort natDescOrder (daysOf rows) :=
      hperm.mem_iff.mpr hd
    have hnd' : d ∉ (List.insertionSort natDescOrder (daysOf rows)).take n := by
      intro hcon
      exact hnd (by rw [trendDates, List.mem_reverse]; exact hcon)
    exact sorted_take_most_recent hp hn n hd' hnd' he

/-- A sentiment-trend bucket is labelled with its group key. -/
theorem trendBucketFor_date (rows : List FeedbackRow) (d : Nat) :
    (trendBucketFor rows d).date = d := rfl

/-- The dates of `getSentimentTrend` are the newest-first limit-14 reversed
day buckets of the analyzed rows. -/
theorem sentiment_trend_dates_eq (db : List FeedbackRow) :
    (getSentimentTrend db).map (·.date) = trendDates (analyzedRows db) 14 := by
  have hc : ((fun x : TrendBucket => x.date) ∘ trendBucketFor (analyzedRows db)) =
      fun d => d := funext fun d => rfl
  simp [getSentimentTrend, trendDates, List.map_reverse, List.map_map, hc]

/-- A per-theme trend bucket is labelled with its group key. -/
theorem themeTrendBucketFor_date (rows : List FeedbackRow) (d : Nat) :
    (themeTrendBucketFor rows d).date = d := rfl

/-- The dates of the `feedback-analyser-2` theme trend are the newest-first
limit-14 reversed day buckets of the theme's analyzed rows. -/
theorem theme_trend_dates_eq (db : List FeedbackRow) (t : String) :
    (getThemeDetailTrend db t).map (·.date) = trendDates (themeRows db t) 14 := by
  have hc : ((fun x : ThemeTrendBucket => x.date) ∘
      themeTrendBucketFor (themeRows db t)) = fun d => d := funext fun d => rfl
  simp [getThemeDetailTrend, trendDates, List.map_reverse, List.map_map, hc]

/-- A per-theme trend bucket of `feedback-analyser` is labelled with its
group key. -/
theorem themeTrendBucketV1For_date (rows : List FeedbackRow) (d : Nat) :
    (themeTrendBucketV1For rows d).date = d := rfl

/-- The dates of the `feedback-analyser` theme trend are the newest-first
limit-7 reversed day buckets of the theme's analyzed rows. -/
theorem theme_trend_v1_dates_eq (db : List FeedbackRow) (t : String) :
    (getThemeDetailTrendV1 db t).map (·.date) = trendDates (themeRows db t) 7 := by
  have hc : ((fun x : ThemeTrendBucketV1 => x.date) ∘
      themeTrendBucketV1For (themeRows db t)) = fun d => d := funext fun d => rfl
  simp [getThemeDetailTrendV1, trendDates, List.map_reverse, List.map_map, hc]

/-- Rows whose sentiments all lie in the closed enum are counted exactly once
by the three sentiment counters. -/
theorem countP_sentiment_partition (l : List FeedbackRow)
    (h : ∀ r ∈ l, r.sentiment = "positive" ∨ r.sentiment = "neutral" ∨
      r.sentiment = "negative") :
    l.countP (fun r => r.sentiment = "positive")
      + l.countP (fun r => r.sentiment = "neutral")
      + l.countP (fun r => r.sentiment = "negative") = l.length := by
  induction l with
  | nil => simp
  | cons a t ih =>
    have ha := h a (List.mem_cons_self a t)
    have ht : t.countP (fun r => r.sentiment = "positive")
        + t.countP (fun r => r.sentiment = "neutral")
        + t.countP (fun r => r.sentiment = "negative") = t.length :=
      ih (fun r hr => h r (List.mem_cons_of_mem a hr))
    simp only [List.countP_cons, List.length_cons]
    rcases ha with h1 | h1 | h1 <;> simp [h1] <;> omega

/-!
## Claim theorems
-/

/-- Claim C2, counterexample: on the empty store the Overview stats report
`total = 0` but a `NULL` (`none`) mean sentiment — not the defined mean of
`0` the claim requires (SQLite `AVG` over zero rows is `NULL`, and
`getOverview` returns it unchanged). -/
theorem overview_empty_mean_is_null_not_zero :
    (getOverviewStats []).total_feedback = 0 ∧
    (getOverviewStats []).avg_sentiment = none ∧
    (getOverviewStats []).avg_sentiment ≠ some 0 := by decide

/-- Claim C2, amended: when the set of analyzed feedback rows is empty, the
Overview stats query returns `total = 0` together with `NULL` (`none`)
sentiment counts and a `NULL` mean sentiment — it does not error and
produces no `NaN`, but the mean is `NULL` rather than `0`. -/
theorem overview_empty_total_zero_mean_null (db : List FeedbackRow)
    (h : analyzedRows db = []) :
    getOverviewStats db =
      { total_feedback := 0, positive := none, neutral := none,
        negative := none, critical_count := none, high_count := none,
        avg_sentiment := none } := by
  simp [getOverviewStats, h, sqlSumCase, sqlAvg]

/-- Claim C2, witness: the amended statement applied to a store holding one
still-pending row. -/
theorem overview_empty_total_zero_mean_null_witness :
    analyzedRows pendingOnlyDb = [] ∧
    getOverviewStats pendingOnlyDb =
      { total_feedback := 0, positive := none, neutral := none,
        negative := none, critical_count := none, high_count := none,
        avg_sentiment := none } :=
  ⟨by decide, overview_empty_total_zero_mean_null pendingOnlyDb (by decide)⟩

/-- Claim C8: over a non-empty analyzed set whose sentiments all lie in the
closed enum, the Overview's positive, neutral and negative counts are
non-`NULL` and sum exactly to its total count. -/
theorem overview_counts_sum_to_total (db : List FeedbackRow)
    (hne : analyzedRows db ≠ [])
    (hval : ∀ r ∈ analyzedRows db, r.sentiment = "positive" ∨
      r.sentiment = "neutral" ∨ r.sentiment = "negative") :
    ∃ p n ng, (getOverviewStats db).positive = some p ∧
      (getOverviewStats db).neutral = some n ∧
      (getOverviewStats db).negative = some ng ∧
      p + n + ng = (getOverviewStats db).total_feedback := by
  have hne' : (analyzedRows db).isEmpty = false := by
    simpa [List.isEmpty_iff] using hne
  refine ⟨(analyzedRows db).countP (fun r => r.sentiment = "positive"),
    (analyzedRows db).countP (fun r => r.sentiment = "neutral"),
    (analyzedRows db).countP (fun r => r.sentiment = "negative"),
    ?_, ?_, ?_, ?_⟩
  · simp [getOverviewStats, sqlSumCase, hne']
  · simp [getOverviewStats, sqlSumCase, hne']
  · simp [getOverviewStats, sqlSumCase, hne']
  · simpa [getOverviewStats] using countP_sentiment_partition (analyzedRows db) hval

/-- Claim C8, witness: the statement applied to a three-row analyzed
store. -/
theorem overview_counts_sum_to_total_witness :
    analyzedRows smallAnalyzedDb ≠ [] ∧
    (∃ p n ng, (getOverviewStats smallAnalyzedDb).positive = some p ∧
      (getOverviewStats smallAnalyzedDb).neutral = some n ∧
      (getOverviewStats smallAnalyzedDb).negative = some ng ∧
      p + n + ng = (getOverviewStats smallAnalyzedDb).total_feedback) :=
  ⟨by decide, overview_counts_sum_to_total smallAnalyzedDb (by decide) (by decide)⟩

/-- Claim C5: the Top Themes view is ordered by urgent count descending then
total count descending, holds at most 5 themes, and on a store where theme
performance has `count = 3, urgent = 2` and theme pricing has
`count = 5, urgent = 1`, performance ranks first. -/
theorem top_themes_order_limit :
    (∀ db : List FeedbackRow,
      (getTopThemes db).Pairwise themeOrder ∧ (getTopThemes db).length ≤ 5) ∧
    (getTopThemes topThemesDb).map (fun t => (t.theme, t.count, t.urgent_count)) =
      [("performance", 3, 2), ("pricing", 5, 1)] := by
  refine ⟨fun db => ⟨?_, ?_⟩, by decide⟩
  · exact (List.sorted_insertionSort themeOrder _).sublist (List.take_sublist 5 _)
  · exact List.length_take_le 5 _

/-- Claim C6: the sentiment trend's dates are strictly ascending, at most 14
buckets are returned, and they are the most recent buckets — every analyzed
day bucket left out is older than every bucket returned — regardless of the
store's scan order. -/
theorem sentiment_trend_ascending (db : List FeedbackRow) :
    ((getSentimentTrend db).map (·.date)).Pairwise (· < ·) ∧
    (getSentimentTrend db).length ≤ 14 ∧
    (∀ d ∈ daysOf (analyzedRows db),
      d ∉ (getSentimentTrend db).map (·.date) →
      ∀ e ∈ (getSentimentTrend db).map (·.date), d < e) := by
  have hs := trend_dates_spec (analyzedRows db) 14
  refine ⟨?_, ?_, ?_⟩
  · rw [sentiment_trend_dates_eq]; exact hs.1
  · calc (getSentimentTrend db).length
        = ((getSentimentTrend db).map (·.date)).length :=
          (List.length_map _ _).symm
      _ ≤ 14 := by rw [sentiment_trend_dates_eq]; exact hs.2.1
  · simp only [sentiment_trend_dates_eq]; exact hs.2.2

/-- Claim C6, witness: on a 15-day store, day 0 is in the analyzed buckets,
is dropped from the trend, and is older than the returned day 1. -/
theorem sentiment_trend_ascending_witness :
    (0 ∈ daysOf (analyzedRows trendDb15)) ∧ (0 : ℕ) < 1 :=
  ⟨by decide, (sentiment_trend_ascending trendDb15).2.2 0 (by decide) (by decide)
    1 (by decide)⟩

/-- Claim C3, counterexample: on a store with 15 distinct performance days,
the `feedback-analyser` theme trend returns only 7 buckets, so it does not
cover the most recent 14 calendar-day buckets (its query uses `LIMIT 7`). -/
theorem theme_trend_v1_only_seven_buckets :
    (daysOf (themeRows trendDb15 "performance")).length = 15 ∧
    (getThemeDetailTrendV1 trendDb15 "performance").length = 7 := by decide

/-- Claim C3, amended: for a given theme, the per-day trend of Theme Detail
is returned in strictly ascending chronological order after the newest-first
fetch is reversed, and covers the most recent day buckets — up to 14 of them
in `feedback-analyser-2`, but only up to 7 in `feedback-analyser`. -/
theorem theme_detail_trend_ascending (db : List FeedbackRow) (t : String) :
    (((getThemeDetailTrend db t).map (·.date)).Pairwise (· < ·) ∧
      (getThemeDetailTrend db t).length ≤ 14 ∧
      (∀ d ∈ daysOf (themeRows db t),
        d ∉ (getThemeDetailTrend db t).map (·.date) →
        ∀ e ∈ (getThemeDetailTrend db t).map (·.date), d < e)) ∧
    (((getThemeDetailTrendV1 db t).map (·.date)).Pairwise (· < ·) ∧
      (getThemeDetailTrendV1 db t).length ≤ 7 ∧
      (∀ d ∈ daysOf (themeRows db t),
        d ∉ (getThemeDetailTrendV1 db t).map (·.date) →
        ∀ e ∈ (getThemeDetailTrendV1 db t).map (·.date), d < e)) := by
  have hs := trend_dates_spec (themeRows db t) 14
  have hs7 := trend_dates_spec (themeRows db t) 7
  refine ⟨⟨?_, ?_, ?_⟩, ?_, ?_, ?_⟩
  · rw [theme_trend_dates_eq]; exact hs.1
  · calc (getThemeDetailTrend db t).length
        = ((getThemeDetailTrend db t).map (·.date)).length :=
          (List.length_map _ _).symm
      _ ≤ 14 := by rw [theme_trend_dates_eq]; exact hs.2.1
  · simp only [theme_trend_dates_eq]; exact hs.2.2
  · rw [theme_trend_v1_dates_eq]; exact hs7.1
  · calc (getThemeDetailTrendV1 db t).length
        = ((getThemeDetailTrendV1 db t).map (·.date)).length :=
          (List.length_map _ _).symm
      _ ≤ 7 := by rw [theme_trend_v1_dates_eq]; exact hs7.2.1
  · simp only [theme_trend_v1_dates_eq]; exact hs7.2.2

/-- Claim C3, witness: on the 15-day store, day 0 is an analyzed performance
bucket dropped by the `feedback-analyser` trend and older than the returned
day 8. -/
theorem theme_detail_trend_ascending_witness :
    (0 ∈ daysOf (themeRows trendDb15 "performance")) ∧ (0 : ℕ) < 8 :=
  ⟨by decide, (theme_detail_trend_ascending trendDb15 "performance").2.2.2 0
    (by decide) (by decide) 8 (by decide)⟩

/-- Reduction of `analyzeWithAI` once the capability call is known to have
answered with `response`. -/
theorem analyzeWithAI_ok_eq (content : String) (run : String → AIOutcome)
    (response : String) (hc : ¬(content = ""))
    (hr : run (analysisPrompt content) = .ok response) :
    analyzeWithAI content run =
      match extractJson response with
      | none => .ok (fallbackParse response)
      | some sub =>
        match parseJson sub with
        | none => .ok (fallbackParse response)
        | some v => .ok v := by
  unfold analyzeWithAI
  rw [if_neg hc, hr]

/-- Claim C4: for non-empty content, `analyzeWithAI` always answers with a
JSON body; on capability failure it returns the fixed capability fallback,
and on extraction failure (no JSON object in the response) or JSON decode
failure it returns the fixed parse fallback — and both fallback records
carry `sentiment = neutral`, `sentiment_score = 0`, `theme = other`,
`urgency = medium` with their fixed summary messages. -/
theorem analyze_fallback_policy (content : String) (run : String → AIOutcome)
    (hc : ¬(content = "")) :
    (∃ body, analyzeWithAI content run = .ok body) ∧
    (∀ msg, run (analysisPrompt content) = .err msg →
      analyzeWithAI content run = .ok (fallbackCapability msg)) ∧
    (∀ response, run (analysisPrompt content) = .ok response →
      extractJson response = none →
      analyzeWithAI content run = .ok (fallbackParse response)) ∧
    (∀ response sub, run (analysisPrompt content) = .ok response →
      extractJson response = some sub → parseJson sub = none →
      analyzeWithAI content run = .ok (fallbackParse response)) ∧
    (∀ raw, (fallbackParse raw).getStr "sentiment" = some "neutral" ∧
      (fallbackParse raw).get "sentiment_score" = some (.num 0) ∧
      (fallbackParse raw).getStr "theme" = some "other" ∧
      (fallbackParse raw).getStr "urgency" = some "medium" ∧
      (fallbackParse raw).getStr "summary" = some "Unable to parse AI response") ∧
    (∀ msg, (fallbackCapability msg).getStr "sentiment" = some "neutral" ∧
      (fallbackCapability msg).get "sentiment_score" = some (.num 0) ∧
      (fallbackCapability msg).getStr "theme" = some "other" ∧
      (fallbackCapability msg).getStr "urgency" = some "medium" ∧
      (fallbackCapability msg).getStr "summary" = some "AI analysis unavailable") := by
  refine ⟨?_, ?_, ?_, ?_, ?_, ?_⟩
  · cases hr : run (analysisPrompt content) with
    | err msg =>
      exact ⟨fallbackCapability msg, by unfold analyzeWithAI; rw [if_neg hc, hr]⟩
    | ok response =>
      cases he : extractJson response with
      | none =>
        exact ⟨fallbackParse response,
          by rw [analyzeWithAI_ok_eq content run response hc hr, he]⟩
      | some sub =>
        cases hp : parseJson sub with
        | none =>
          exact ⟨fallbackParse response,
            by simp only [analyzeWithAI_ok_eq content run response hc hr, he, hp]⟩
        | some v =>
          exact ⟨v,
            by simp only [analyzeWithAI_ok_eq content run response hc hr, he, hp]⟩
  · intro msg hr
    unfold analyzeWithAI
    rw [if_neg hc, hr]
  · intro response hr he
    rw [analyzeWithAI_ok_eq content run response hc hr, he]
  · intro response sub hr he hp
    simp only [analyzeWithAI_ok_eq content run response hc hr, he, hp]
  · intro raw
    exact ⟨rfl, rfl, rfl, rfl, rfl⟩
  · intro msg
    exact ⟨rfl, rfl, rfl, rfl, rfl⟩

/-- Claim C4, witness: with the classifier answering the spec's example text
`"not json at all"`, extraction fails and the fixed parse fallback is
returned. -/
theorem analyze_fallback_policy_witness :
    analyzeWithAI "Great product" (fun _ => .ok "not json at all") =
      .ok (fallbackParse "not json at all") :=
  (analyze_fallback_policy "Great product" (fun _ => .ok "not json at all")
    (by decide)).2.2.1 "not json at all" rfl (by rfl)

/-- Claim C1, counterexample: a classifier response whose extracted substring
decodes as JSON but whose `sentiment`, `theme` and `urgency` all lie outside
their closed enums is returned verbatim by `analyzeWithAI` — no fallback is
taken (the summary is not the fallback message) and the out-of-enum values
appear in the result. -/
theorem analyze_accepts_out_of_enum_values :
    analyzeField (analyzeWithAI "Great product" (fun _ => .ok alienResponse))
      "sentiment" = some "alien" ∧
    analyzeField (analyzeWithAI "Great product" (fun _ => .ok alienResponse))
      "theme" = some "spaceship" ∧
    analyzeField (analyzeWithAI "Great product" (fun _ => .ok alienResponse))
      "urgency" = some "galactic" ∧
    ¬("alien" ∈ sentimentEnum) ∧ ¬("spaceship" ∈ themeEnum) ∧
    ¬("galactic" ∈ urgencyEnum) ∧
    analyzeField (analyzeWithAI "Great product" (fun _ => .ok alienResponse))
      "summary" ≠ some "Unable to parse AI response" := by
  refine ⟨by rfl, by rfl, by rfl, by decide, by decide, by decide, by decide⟩

/-- Claim C1, amended: `analyzeWithAI` performs no enum validation — whenever
the substring extracted from the classifier response decodes as JSON, the
decoded value is returned verbatim, including `sentiment`/`theme`/`urgency`
values outside their closed enums; only capability, extraction or decode
failure produces the fallback record (whose own enum fields are valid). -/
theorem analyze_returns_decoded_json_verbatim (content : String)
    (run : String → AIOutcome) (response sub : String) (v : JVal)
    (hc : ¬(content = "")) (hr : run (analysisPrompt content) = .ok response)
    (he : extractJson response = some sub) (hp : parseJson sub = some v) :
    analyzeWithAI content run = .ok v := by
  simp only [analyzeWithAI_ok_eq content run response hc hr, he, hp]

/-- Claim C1, witness: the amended statement applied to the out-of-enum
response, whose decoded value is returned unchanged. -/
theorem analyze_returns_decoded_json_verbatim_witness :
    analyzeWithAI "Great product" (fun _ => .ok alienResponse) =
      .ok alienJVal :=
  analyze_returns_decoded_json_verbatim "Great product"
    (fun _ => .ok alienResponse) alienResponse alienResponse alienJVal
    (by decide) rfl (by rfl) (by rfl)

/-- Claim C10: whenever `analyzeWithAI` takes a fallback path, the returned
record carries fields beyond the documented `ClassificationResult` keys: on
extraction or decode failure it includes `raw_response` holding the
classifier's full raw output text, and on capability failure it includes
`error` holding the capability error message. -/
theorem analyze_fallback_exposes_raw_response (content : String)
    (run : String → AIOutcome) (hc : ¬(content = "")) :
    (∀ response, run (analysisPrompt content) = .ok response →
      extractJson response = none →
      analyzeField (analyzeWithAI content run) "raw_response" = some response) ∧
    (∀ response sub, run (analysisPrompt content) = .ok response →
      extractJson response = some sub → parseJson sub = none →
      analyzeField (analyzeWithAI content run) "raw_response" = some response) ∧
    (∀ msg, run (analysisPrompt content) = .err msg →
      analyzeField (analyzeWithAI content run) "error" = some msg) ∧
    ¬("raw_response" ∈ classificationKeys) ∧
    ¬("error" ∈ classificationKeys) := by
  refine ⟨?_, ?_, ?_, by decide, by decide⟩
  · intro response hr he
    simp only [analyzeWithAI_ok_eq content run response hc hr, he]
    rfl
  · intro response sub hr he hp
    simp only [analyzeWithAI_ok_eq content run response hc hr, he, hp]
    rfl
  · intro msg hr
    unfold analyzeWithAI
    rw [if_neg hc, hr]
    rfl

/-- Claim C10, witness: a failing capability call yields a record exposing
the error message under the undocumented `error` key. -/
theorem analyze_fallback_exposes_raw_response_witness :
    analyzeField (analyzeWithAI "Great product" (fun _ => .err "quota"))
      "error" = some "quota" :=
  (analyze_fallback_exposes_raw_response "Great product"
    (fun _ => .err "quota") (by decide)).2.2.1 "quota" rfl

/-- Claim C9: `summarizeFeedback` depends only on the first 10 texts; with an
absent or empty text sequence it returns the fixed no-feedback message
independently of the AI capability (which is therefore never consulted); and
on capability failure it returns the fixed unavailable-summary message
instead of propagating the error. -/
theorem summarize_policy :
    (∀ (texts : List String) (theme : String) (run : String → AIOutcome),
      summarizeFeedback (some texts) theme run =
        summarizeFeedback (some (texts.take 10)) theme run) ∧
    (∀ (theme : String) (run run' : String → AIOutcome),
      summarizeFeedback none theme run = summarizeFeedback none theme run' ∧
      summarizeFeedback none theme run =
        .obj [("summary", .str noFeedbackMsg)] ∧
      summarizeFeedback (some []) theme run =
        .obj [("summary", .str noFeedbackMsg)]) ∧
    (∀ (texts : List String) (theme : String) (run : String → AIOutcome)
      (msg : String), texts ≠ [] →
      run (summaryPrompt theme (combinedFeedback texts)) = .err msg →
      summarizeFeedback (some texts) theme run =
        .obj [("summary", .str summaryUnavailableMsg), ("error", .str msg)]) := by
  refine ⟨?_, fun theme run run' => ⟨rfl, rfl, rfl⟩, ?_⟩
  · intro texts theme run
    cases texts with
    | nil => rfl
    | cons a t =>
      have hne : ((a :: t).take 10).isEmpty = false := by
        simp [List.isEmpty_iff, List.take_eq_nil_iff]
      have hcomb : combinedFeedback ((a :: t).take 10) =
          combinedFeedback (a :: t) := by
        simp [combinedFeedback, List.take_take]
      simp only [summarizeFeedback, hne, hcomb, List.isEmpty_cons]
  · intro texts theme run msg hne hrun
    cases texts with
    | nil => exact absurd rfl hne
    | cons a t => simp [summarizeFeedback, hrun]

/-- Claim C9, witness: a one-text sequence with a failing capability yields
the fixed unavailable-summary record. -/
theorem summarize_policy_witness :
    summarizeFeedback (some ["too slow"]) "performance" (fun _ => .err "boom") =
      .obj [("summary", .str summaryUnavailableMsg), ("error", .str "boom")] :=
  summarize_policy.2.2 ["too slow"] "performance" (fun _ => .err "boom") "boom"
    (by decide) rfl

/-- Claim C7: a filter criterion set to the sentinel `"all"` yields exactly
the same listing as omitting it; every returned item is analyzed; the list
is ordered newest first by `createdAt`; its length is capped at the
requested limit (default 50); and the query text is a function of which
criteria are active alone — filter values are passed only in the bound
parameter list, never interpolated into the text. -/
theorem list_feedback_spec :
    (∀ (db : List FeedbackRow) (f : FeedbackFilters),
      getFeedback db { f with sentiment := some "all" } =
        getFeedback db { f with sentiment := none } ∧
      getFeedback db { f with theme := some "all" } =
        getFeedback db { f with theme := none } ∧
      getFeedback db { f with urgency := some "all" } =
        getFeedback db { f with urgency := none } ∧
      getFeedback db { f with channel := some "all" } =
        getFeedback db { f with channel := none }) ∧
    (∀ (db : List FeedbackRow) (f : FeedbackFilters) (r : FeedbackRow),
      r ∈ getFeedback db f → r.analyzed = true) ∧
    (∀ (db : List FeedbackRow) (f : FeedbackFilters),
      (getFeedback db f).Pairwise rowRecencyOrder) ∧
    (∀ (db : List FeedbackRow) (f : FeedbackFilters),
      (getFeedback db f).length ≤ f.limit.getD 50) ∧
    (∀ f, feedbackQueryText f =
      queryTextOfFlags (filterActive f.sentiment) (filterActive f.theme)
        (filterActive f.urgency) (filterActive f.channel)) := by
  refine ⟨?_, ?_, ?_, ?_, fun f => rfl⟩
  · intro db f
    have hs : matchesFilters { f with sentiment := some "all" } =
        matchesFilters { f with sentiment := none } := by
      funext r; simp [matchesFilters, filterCond]
    have ht : matchesFilters { f with theme := some "all" } =
        matchesFilters { f with theme := none } := by
      funext r; simp [matchesFilters, filterCond]
    have hu : matchesFilters { f with urgency := some "all" } =
        matchesFilters { f with urgency := none } := by
      funext r; simp [matchesFilters, filterCond]
    have hch : matchesFilters { f with channel := some "all" } =
        matchesFilters { f with channel := none } := by
      funext r; simp [matchesFilters, filterCond]
    exact ⟨by simp only [getFeedback, hs], by simp only [getFeedback, ht],
      by simp only [getFeedback, hu], by simp only [getFeedback, hch]⟩
  · intro db f r hr
    have hr' : r ∈ (List.insertionSort rowRecencyOrder
        (db.filter (matchesFilters f))).take (f.limit.getD 50) := hr
    have h1 : r ∈ List.insertionSort rowRecencyOrder
        (db.filter (matchesFilters f)) := List.mem_of_mem_take hr'
    have h2 : r ∈ db.filter (matchesFilters f) :=
      (List.perm_insertionSort rowRecencyOrder _).mem_iff.mp h1
    have h3 : matchesFilters f r = true := List.of_mem_filter h2
    unfold matchesFilters at h3
    repeat rw [Bool.and_eq_true] at h3
    exact h3.1.1.1.1
  · intro db f
    exact (List.sorted_insertionSort rowRecencyOrder _).sublist
      (List.take_sublist _ _)
  · intro db f
    exact List.length_take_le _ _

/-- Claim C7, witness: the analyzed-only guarantee applied to the positive
row returned by a concrete filtered listing. -/
theorem list_feedback_spec_witness :
    (positiveRow ∈ getFeedback smallAnalyzedDb { sentiment := some "positive" }) ∧
    positiveRow.analyzed = true :=
  ⟨by decide, list_feedback_spec.2.1 smallAnalyzedDb
    { sentiment := some "positive" } positiveRow (by decide)⟩
